import Mathlib

/-!
Verification of `scripts/generate-summary.py` (event-summary aggregation
pipeline).  The Python program is shallowly embedded: pure helper functions
become Lean functions on `String`/`List Char`; the network boundary
(`fetch_text`, `fetch_bytes`), the stdlib regex scans that cut a fetched page
into per-event blocks, and stdlib parsers (`json.loads`) are modelled as
explicit inputs or oracle parameters; Python exceptions are modelled with
`Except String`.  Python compares strings (and tuples of strings) by Unicode
code points, lexicographically; `lexCmp` below implements exactly that
comparison so that sorting can be reasoned about and evaluated by the kernel.
-/

/-- Three-way lexicographic comparison of character lists by Unicode code
point, i.e. Python's `str` comparison (`"ab" < "b"`, shorter strict
prefixes sort first). -/
def lexCmp : List Char → List Char → Ordering
  | [], [] => .eq
  | [], _ :: _ => .lt
  | _ :: _, [] => .gt
  | a :: as, b :: bs =>
    if a.toNat < b.toNat then .lt
    else if b.toNat < a.toNat then .gt
    else lexCmp as bs

/-- `Ordering` viewed as a non-strict "less or equal" Bool. -/
def obLe : Ordering → Bool
  | .gt => false
  | _ => true

/-- Python `x <= y` on strings (as char lists). -/
def lexLe (x y : List Char) : Bool := obLe (lexCmp x y)

/-- Lexicographic composition of two three-way comparators: Python's tuple
comparison `(x1, x2) <= (y1, y2)`. -/
def lexPair {α β : Type} (f : α → α → Ordering) (g : β → β → Ordering)
    (x y : α × β) : Ordering :=
  (f x.1 y.1).then (g x.2 y.2)

/-- Python comparison of a 3-tuple of strings, as used for sort keys. -/
def cmp3 (x y : List Char × List Char × List Char) : Ordering :=
  lexPair lexCmp (lexPair lexCmp lexCmp) x y

/-- Python `x <= y` on 3-tuples of strings. -/
def key3Le (x y : List Char × List Char × List Char) : Bool := obLe (cmp3 x y)

/-- Python's substring test `needle in hay` reduced to a head test:
`leadsWith n h` holds when `n` is an initial segment of `h`. -/
def leadsWith : List Char → List Char → Bool
  | [], _ => true
  | _ :: _, [] => false
  | a :: as, b :: bs => a = b && leadsWith as bs

/-- Python's substring containment `needle in hay`. -/
def containsSub (needle : List Char) : List Char → Bool
  | [] => leadsWith needle []
  | c :: rest => leadsWith needle (c :: rest) || containsSub needle rest

/-- Python string truthiness fallback `a or b` for `str` values. -/
def pyOr (a b : String) : String := if a = "" then b else a

/-- Python `a or b` where `a` is an `Optional[str]`-like value (`None` and
`""` are both falsy). -/
def pyOrOpt (a : Option String) (b : String) : String :=
  match a with
  | none => b
  | some s => if s = "" then b else s

/-- Python `str(x)` for an `Optional[str]`: `str(None) = "None"`. -/
def pyStrOpt : Option String → String
  | none => "None"
  | some s => s

/-- `%02d` formatting of a natural number. -/
def pad2 (n : Nat) : String := if n < 10 then "0" ++ toString n else toString n

/-- `%04d` formatting of a natural number. -/
def pad4 (n : Nat) : String :=
  if n < 10 then "000" ++ toString n
  else if n < 100 then "00" ++ toString n
  else if n < 1000 then "0" ++ toString n
  else toString n

/-- The double-quote character (written via its code point to keep the
source free of quote-in-quote literals). -/
def dquoteC : Char := Char.ofNat 34

/-- The apostrophe character. -/
def aposC : Char := Char.ofNat 39

/-- Per-character translation of `html.escape(s, quote=True)` (`esc` in the
source): `&`, `<`, `>`, `"`, `'` become entities.  The source applies five
sequential `str.replace` passes; since the first pass rewrites every original
`&` and later passes never reprocess their own output, the result equals this
single character-wise map. -/
def escChar (c : Char) : List Char :=
  if c = '&' then "&amp;".data
  else if c = '<' then "&lt;".data
  else if c = '>' then "&gt;".data
  else if c = dquoteC then "&quot;".data
  else if c = aposC then "&#x27;".data
  else [c]

/-- `esc` from the source: `html.escape(s, quote=True)`. -/
def esc (s : String) : String := ⟨(s.data.map escChar).flatten⟩

/-- `event.date_iso.replace("-", "/")` — both operands are single
characters, so `str.replace` equals a character-wise map. -/
def dashToSlash (s : String) : String :=
  ⟨s.data.map (fun c => if c = '-' then '/' else c)⟩

/-- The whitespace class of the regex `[\t\r\n ]` in `collapse_ws`. -/
def isWsRe (c : Char) : Bool := c = ' ' || c = '\t' || c = '\r' || c = '\n'

/-- Characters removed by Python `str.strip()` at the ends.  (Python also
strips the rarer Unicode whitespace code points; the inputs of this
development only ever carry these.) -/
def isWsPy (c : Char) : Bool :=
  c = ' ' || c = '\t' || c = '\r' || c = '\n' ||
  c = Char.ofNat 11 || c = Char.ofNat 12

/-- `re.sub(r"[\t\r\n ]+", " ", s)`: each maximal whitespace run becomes a
single space.  The flag records whether we are inside a run. -/
def subWsCore : Bool → List Char → List Char
  | _, [] => []
  | inRun, c :: rest =>
    if isWsRe c then
      if inRun then subWsCore true rest else ' ' :: subWsCore true rest
    else c :: subWsCore false rest

/-- Python `str.strip()`. -/
def pyStrip (l : List Char) : List Char :=
  (((l.dropWhile (isWsPy ·)).reverse).dropWhile (isWsPy ·)).reverse

/-- `collapse_ws` from the source: collapse whitespace runs, then strip. -/
def collapseWs (s : String) : String := ⟨pyStrip (subWsCore false s.data)⟩

/-- One attempt of `re.search(r"(\d{1,2}):(\d{2})", ...)` at the current
position: try the greedy two-digit hour first, then backtrack to one digit,
exactly like the regex engine.  Returns (hour digit 1, optional hour digit 2,
minute digit 1, minute digit 2). -/
def matchAt : List Char → Option (Char × Option Char × Char × Char)
  | c0 :: c1 :: rest =>
    if c0.isDigit then
      if c1.isDigit then
        match rest with
        | c2 :: c3 :: c4 :: _ =>
          if c2 = ':' && c3.isDigit && c4.isDigit then some (c0, some c1, c3, c4)
          else none
        | _ => none
      else if c1 = ':' then
        match rest with
        | c2 :: c3 :: _ =>
          if c2.isDigit && c3.isDigit then some (c0, none, c2, c3) else none
        | _ => none
      else none
    else none
  | _ => none

/-- `re.search(r"(\d{1,2}):(\d{2})", value)`: leftmost match wins. -/
def searchHHMM : List Char → Option (Char × Option Char × Char × Char)
  | [] => none
  | c :: rest =>
    match matchAt (c :: rest) with
    | some r => some r
    | none => searchHHMM rest

/-- `f"{int(m.group(1)):02d}:{m.group(2)}"`: a two-digit decimal numeral is
reproduced verbatim by `int` + `%02d`, a one-digit one is zero-padded. -/
def hhmmOf : Char × Option Char × Char × Char → String
  | (h1, none, m1, m2) => ⟨['0', h1, ':', m1, m2]⟩
  | (h1, some h2, m1, m2) => ⟨[h1, h2, ':', m1, m2]⟩

/-- `normalize_hhmm` from the source (argument is `Optional[str]`; `None`
and `""` are both falsy for `if not value`). -/
def normalizeHHMM (value : Option String) : Option String :=
  match value with
  | none => none
  | some v => if v = "" then none else (searchHHMM v.data).map hhmmOf

/-- `re.fullmatch(r"\d{1,2}:\d{2}", s)` as a Bool — note: no bound on the
hour or minute values, and a one-digit hour is accepted. -/
def isTimeTok (s : String) : Bool :=
  match s.data with
  | [a, b, c, d] => a.isDigit && b = ':' && c.isDigit && d.isDigit
  | [a, b, c, d, e] => a.isDigit && b.isDigit && c = ':' && d.isDigit && e.isDigit
  | _ => false

/-- `re.fullmatch(r"\d{4}-\d{2}-\d{2}", s)` as a Bool. -/
def isDateTok (s : String) : Bool :=
  match s.data with
  | [a, b, c, d, e, f, g, h, i, j] =>
    a.isDigit && b.isDigit && c.isDigit && d.isDigit && e = '-' &&
    f.isDigit && g.isDigit && h = '-' && i.isDigit && j.isDigit
  | _ => false

/-- A strict zero-padded clock token `\d{2}:\d{2}` (what `normalize_hhmm`
actually produces). -/
def isPadded (s : String) : Bool :=
  match s.data with
  | [a, b, c, d, e] => a.isDigit && b.isDigit && c = ':' && d.isDigit && e.isDigit
  | _ => false

/-- Decimal value of a digit character. -/
def digitVal (c : Char) : Nat := c.toNat - 48

/-- Modelled from the spec: a "well-formed `HH:MM` token with a valid hour
range 00–23 and minute range 00–59" (one- or two-digit hour shape accepted,
value ranges enforced) — the sort-key side condition the spec claims. -/
def specWellFormedTime (s : String) : Bool :=
  match s.data with
  | [a, b, c, d] => a.isDigit && b = ':' && c.isDigit && d.isDigit &&
      decide (digitVal a ≤ 23) && decide (digitVal c * 10 + digitVal d ≤ 59)
  | [a, b, c, d, e] => a.isDigit && b.isDigit && c = ':' && d.isDigit && e.isDigit &&
      decide (digitVal a * 10 + digitVal b ≤ 23) &&
      decide (digitVal d * 10 + digitVal e ≤ 59)
  | _ => false

/-- Values of the Python stdlib `datetime.date` as consumed by the program:
the calendar fields plus `date.weekday()` (Monday = 0). -/
structure Date where
  year : Nat
  month : Nat
  day : Nat
  weekday : Fin 7
  deriving DecidableEq

/-- `date_obj.isoformat()`. -/
def isoDate (d : Date) : String :=
  pad4 d.year ++ "-" ++ pad2 d.month ++ "-" ++ pad2 d.day

/-- `date_obj.strftime("%Y%m%d")`. -/
def strftimeYmd (d : Date) : String := pad4 d.year ++ pad2 d.month ++ pad2 d.day

/-- `WEEKDAYS_JA[w]` with `WEEKDAYS_JA = "月火水木金土日"`. -/
def jpWeekday : Fin 7 → Char
  | 0 => '月'
  | 1 => '火'
  | 2 => '水'
  | 3 => '木'
  | 4 => '金'
  | 5 => '土'
  | 6 => '日'

/-- `jp_date_compact`. -/
def jpDateCompact (d : Date) : String :=
  toString d.year ++ "年" ++ toString d.month ++ "月" ++ toString d.day ++ "日"

/-- `jp_date_display`. -/
def jpDateDisplay (d : Date) : String :=
  jpDateCompact d ++ "（" ++ String.mk [jpWeekday d.weekday] ++ "）"

/-- `LinkItem` dataclass. -/
structure LinkItem where
  label : String
  url : String
  deriving DecidableEq

/-- `EventItem` dataclass (defaults as in the source). -/
structure EventItem where
  site : String
  title : String
  date_iso : String
  date_text : String
  venue : String
  open_time : String := "記載なし"
  start_time : String := "記載なし"
  end_time : String := "記載なし"
  end_estimated : Bool := false
  url : String := ""
  flyer_image : String := ""
  flyer_alt : String := ""
  flyer_missing : String := ""
  links : List LinkItem := []
  deriving DecidableEq

/-- `SiteResult` dataclass. -/
structure SiteResult where
  key : String
  label : String
  date_obj : Date
  events : List EventItem := []
  note : String := ""
  deriving DecidableEq

/-- The sort-key start-time component of `sort_events`:
`ev.start_time if re.fullmatch(r"\d{1,2}:\d{2}", ev.start_time or "") else "99:99"`. -/
def effStart (e : EventItem) : String :=
  if isTimeTok e.start_time then e.start_time else "99:99"

/-- The full sort key `(ev.date_iso, start, ev.title)` of `sort_events`. -/
def evKey (e : EventItem) : List Char × List Char × List Char :=
  (e.date_iso.data, (effStart e).data, e.title.data)

/-- Python key comparison between two events as `sorted(..., key=key)`
performs it. -/
def keyLe (a b : EventItem) : Prop := key3Le (evKey a) (evKey b) = true

instance : DecidableRel keyLe := fun a b => by unfold keyLe; infer_instance

/-- `sort_events` from the source.  Python's `sorted` is the stable sort by
the key under `<` on tuples of strings; insertion sort with the non-strict
key comparison is exactly that stable sort. -/
def sortEvents (events : List EventItem) : List EventItem :=
  List.insertionSort keyLe events

/-- Modelled from the spec: the spec's version of the effective start time,
which demands a valid hour/minute range before the literal token is used. -/
def specEffStart (e : EventItem) : String :=
  if specWellFormedTime e.start_time then e.start_time else "99:99"

/-- Modelled from the spec: the spec's sort key. -/
def specKey (e : EventItem) : List Char × List Char × List Char :=
  (e.date_iso.data, (specEffStart e).data, e.title.data)

/-- Modelled from the spec: spec-side key comparison. -/
def specKeyLe (a b : EventItem) : Prop := key3Le (specKey a) (specKey b) = true

instance : DecidableRel specKeyLe := fun a b => by unfold specKeyLe; infer_instance

/-- Modelled from the spec: the ordering the spec claims `sort_events`
implements (stable sort by `specKey`). -/
def specSortEvents (events : List EventItem) : List EventItem :=
  List.insertionSort specKeyLe events

/-- The state-passing view of the call `sorted(events, key=key)` inside
`sort_events`: CPython's builtin `sorted` copies the iterable into a new
list and sorts the copy (documented library semantics), so the argument
list object is left unchanged.  First component: the argument's value after
the call; second: the returned list. -/
def sortEventsCall (events : List EventItem) : List EventItem × List EventItem :=
  (events, sortEvents events)

/-- `render_flyer`. -/
def renderFlyer (e : EventItem) : String :=
  if e.flyer_image ≠ "" then
    "<div class=\"flyer\"><img src=\"" ++ esc e.flyer_image ++ "\" alt=\"" ++
      esc (pyOr e.flyer_alt (e.title ++ " フライヤー")) ++ "\"></div>"
  else
    "<div class=\"flyer none\">" ++
      esc (pyOr e.flyer_missing "フライヤーなし（掲載なし）") ++ "</div>"

/-- `render_gcal_button`: emits the calendar-add affordance only when
`date_iso`, `start_time` and `end_time` all full-match their token regexes. -/
def renderGcalButton (e : EventItem) : String :=
  if !(isDateTok e.date_iso && isTimeTok e.start_time && isTimeTok e.end_time) then ""
  else
    "<a class=\"btn gcal gcal-btn\" href=\"#\" " ++
    "data-title=\"" ++ esc e.title ++ "\" " ++
    "data-date=\"" ++ esc e.date_iso ++ "\" " ++
    "data-start=\"" ++ esc e.start_time ++ "\" " ++
    "data-end=\"" ++ esc e.end_time ++ "\" " ++
    "data-location=\"" ++ esc e.venue ++ "\" " ++
    "data-url=\"" ++ esc e.url ++ "\">Googleカレンダーに追加</a>"

/-- One `<a class="btn" ...>` entry of `render_links`. -/
def renderLinkBtn (l : LinkItem) : String :=
  "<a class=\"btn\" href=\"" ++ esc l.url ++
    "\" target=\"_blank\" rel=\"noopener\">" ++ esc l.label ++ "</a>"

/-- `render_links`. -/
def renderLinks (e : EventItem) : String :=
  let gcal := renderGcalButton e
  let items := (if gcal ≠ "" then [gcal] else []) ++ e.links.map renderLinkBtn
  if items = [] then ""
  else "<div class=\"links\">" ++ String.join items ++ "</div>"

/-- `render_event_card`. -/
def renderEventCard (e : EventItem) : String :=
  let end_display :=
    if e.end_time ≠ "記載なし" ∧ e.end_estimated then e.end_time ++ "（予定）"
    else e.end_time
  let body : List String :=
    ["<article class=\"card\">",
     renderFlyer e,
     "<div class=\"body\">",
     "<h3 class=\"title\">" ++ esc e.title ++ "</h3>",
     "<div class=\"chips\">",
     "<span class=\"chip\">" ++ esc e.site ++ "</span>",
     "<span class=\"chip\">" ++ esc (dashToSlash e.date_iso) ++ "</span>",
     "</div>",
     "<dl>",
     "<dt>日時</dt><dd>" ++ esc e.date_text ++ "</dd>",
     "<dt>会場</dt><dd>" ++ esc (pyOr e.venue "記載なし") ++ "</dd>",
     "<dt>開場</dt><dd>" ++ esc (pyOr e.open_time "記載なし") ++ "</dd>",
     "<dt>開演</dt><dd>" ++ esc (pyOr e.start_time "記載なし") ++ "</dd>",
     "<dt>終演</dt><dd>" ++ esc (pyOr end_display "記載なし") ++ "</dd>",
     "<dt>URL</dt><dd><a href=\"" ++ esc e.url ++
       "\" target=\"_blank\" rel=\"noopener\">詳細ページ</a></dd>",
     "</dl>"]
  let links_html := renderLinks e
  let body := body ++ (if links_html ≠ "" then [links_html] else [])
  String.join (body ++ ["</div>", "</article>"])

/-- `render_empty_card`. -/
def renderEmptyCard (label note : String) (date_obj : Date) : String :=
  "<article class=\"card\">" ++
  "<div class=\"flyer none\">該当イベントなし</div>" ++
  "<div class=\"body\">" ++
  "<h3 class=\"title\">" ++ esc label ++ "（" ++ esc (jpDateDisplay date_obj) ++ "）</h3>" ++
  "<div class=\"chips\">" ++
  "<span class=\"chip\">" ++ esc label ++ "</span>" ++
  "<span class=\"chip\">" ++ esc (dashToSlash (isoDate date_obj)) ++ "</span>" ++
  "</div>" ++
  "<dl>" ++
  "<dt>状態</dt><dd>該当イベントなし</dd>" ++
  "<dt>補足</dt><dd>" ++ esc (pyOr note "対象日の掲載イベントは見つかりませんでした") ++ "</dd>" ++
  "</dl>" ++
  "</div>" ++
  "</article>"

/-- `render_site_block`. -/
def renderSiteBlock (site : SiteResult) : String :=
  let title := site.label ++ "（" ++ jpDateDisplay site.date_obj ++ "）"
  let cards_html :=
    if site.events ≠ [] then String.join ((sortEvents site.events).map renderEventCard)
    else renderEmptyCard site.label site.note site.date_obj
  "<!-- SITE BLOCK START -->" ++
  "<section class=\"site-block\">" ++
  "<h2>" ++ esc title ++ "</h2>" ++
  "<div class=\"grid\">" ++ cards_html ++ "</div>" ++
  "</section>" ++
  "<!-- SITE BLOCK END -->"

/-- The merged event list of `render_global_block` (`events.extend(site.events)`
over the given sites, in order). -/
def globalEvents (sites : List SiteResult) : List EventItem :=
  (sites.map SiteResult.events).flatten

/-- The body of `render_global_block` once the merged event list is built —
the rendered output depends on the sites only through that list. -/
def renderGlobalOfEvents (date_obj : Date) (events : List EventItem) : String :=
  let title := "当日イベント一覧（開演順）" ++ jpDateDisplay date_obj
  let cards_html :=
    if events ≠ [] then String.join ((sortEvents events).map renderEventCard)
    else renderEmptyCard "全サイト横断" "該当イベントなし" date_obj
  "<!-- SITE BLOCK START -->" ++
  "<section class=\"site-block\">" ++
  "<h2>" ++ esc title ++ "</h2>" ++
  "<div class=\"grid\">" ++ cards_html ++ "</div>" ++
  "</section>" ++
  "<!-- SITE BLOCK END -->"

/-- `render_global_block`. -/
def renderGlobalBlock (date_obj : Date) (site_results : List SiteResult) : String :=
  renderGlobalOfEvents date_obj (globalEvents site_results)

/-- `site_order_key`.  The source tests `if not site.events` first and
otherwise reads `sort_events(site.events)[0]`; matching on the sorted list
is extensionally the same (sorting preserves emptiness) and keeps the
function total. -/
def siteOrderKey (site : SiteResult) : String × String × String :=
  match sortEvents site.events with
  | [] => ("99:99", "99:99", site.label)
  | first :: _ =>
    (pyOr first.date_iso "9999-99-99",
     (if isTimeTok first.start_time then first.start_time else "99:99"),
     site.label)

/-- Python comparison of `site_order_key` tuples, as `sorted(site_results,
key=site_order_key)` performs it. -/
def siteLe (s t : SiteResult) : Prop :=
  key3Le ((siteOrderKey s).1.data, (siteOrderKey s).2.1.data, (siteOrderKey s).2.2.data)
         ((siteOrderKey t).1.data, (siteOrderKey t).2.1.data, (siteOrderKey t).2.2.data) = true

instance : DecidableRel siteLe := fun s t => by unfold siteLe; infer_instance

/-- The digest fragment `render_from_template` splices between the two SITE
BLOCK markers: the global block over the site results ordered by
`site_order_key`.  (Reading the template file and the marker splice itself
are file I/O, out of the core's scope per the spec.) -/
def digestFragment (date_obj : Date) (site_results : List SiteResult) : String :=
  renderGlobalBlock date_obj (List.insertionSort siteLe site_results)

/-- One entry of the source configuration (`dict` keys `"type"`, `"label"`,
`"kind"`; a missing key is `none`). -/
structure SourceConf where
  stype : Option String
  slabel : Option String
  kind : Option Int
  deriving DecidableEq

/-- The registered adapter dispatch tags of `run_scraper`'s if-chain. -/
def registeredTags : List String :=
  ["kitara", "sapporo_community_plaza", "sapporo_shiminhall", "musicfun",
   "mountalive", "wess", "kyobun", "sapporo_dome", "sora_scc", "axes",
   "makomanai_icearena", "zepp_sapporo"]

/-- The adapter functions as `run_scraper` sees them: each takes the target
date and display label and either returns a `SiteResult` or raises (modelled
as `Except.error` with the exception text).  Their bodies perform network
I/O, so they are the oracle boundary of this embedding. -/
structure AdapterEnv where
  kitara : Date → String → Except String SiteResult
  sapporo_community_plaza : Date → String → Int → Except String SiteResult
  sapporo_shiminhall : Date → String → Except String SiteResult
  musicfun : Date → String → Except String SiteResult
  mountalive : Date → String → Except String SiteResult
  wess : Date → String → Except String SiteResult
  kyobun : Date → String → Except String SiteResult
  sapporo_dome : Date → String → Except String SiteResult
  sora_scc : Date → String → Except String SiteResult
  axes : Date → String → Except String SiteResult
  makomanai_icearena : Date → String → Except String SiteResult
  zepp_sapporo : Date → String → Except String SiteResult

/-- `run_scraper`: label fallback `source_conf.get("label") or stype or
"source"`, then the dispatch if-chain; an unknown tag yields the
`未対応ソース` result.  Exceptions of the called adapter propagate. -/
def runScraperE (env : AdapterEnv) (conf : SourceConf) (date_obj : Date) :
    Except String SiteResult :=
  let stype := conf.stype
  let label := pyOrOpt conf.slabel (pyOrOpt conf.stype "source")
  if stype = some "kitara" then env.kitara date_obj label
  else if stype = some "sapporo_community_plaza" then
    env.sapporo_community_plaza date_obj label (conf.kind.getD 2)
  else if stype = some "sapporo_shiminhall" then env.sapporo_shiminhall date_obj label
  else if stype = some "musicfun" then env.musicfun date_obj label
  else if stype = some "mountalive" then env.mountalive date_obj label
  else if stype = some "wess" then env.wess date_obj label
  else if stype = some "kyobun" then env.kyobun date_obj label
  else if stype = some "sapporo_dome" then env.sapporo_dome date_obj label
  else if stype = some "sora_scc" then env.sora_scc date_obj label
  else if stype = some "axes" then env.axes date_obj label
  else if stype = some "makomanai_icearena" then env.makomanai_icearena date_obj label
  else if stype = some "zepp_sapporo" then env.zepp_sapporo date_obj label
  else .ok { key := pyStrOpt stype, label := label, date_obj := date_obj,
             events := [], note := "未対応ソース" }

/-- `src.get("label", src.get("type", "source"))` in `main`'s loop (plain
`dict.get` with default: no falsiness coercion, unlike `run_scraper`). -/
def mainLabel (conf : SourceConf) : String :=
  conf.slabel.getD (conf.stype.getD "source")

/-- The `SiteResult` `main` appends when `run_scraper` raised `e`. -/
def mainFailResult (conf : SourceConf) (date_obj : Date) (e : String) : SiteResult :=
  { key := pyStrOpt conf.stype, label := mainLabel conf, date_obj := date_obj,
    events := [], note := "取得失敗: " ++ e }

/-- `main`'s aggregation loop over the enabled sources: one `SiteResult` per
source, catching any exception at the boundary. -/
def mainResults (env : AdapterEnv) (date_obj : Date) (sources : List SourceConf) :
    List SiteResult :=
  sources.map fun src =>
    match runScraperE env src date_obj with
    | .ok r => r
    | .error e => mainFailResult src date_obj e

/-- A `wess.jp` JSON post as consumed by `scrape_wess`: each field is the
`str(...)`-coerced value the loop reads (a missing key reads as `""`, and
`post["title"]`/`post["link"]` as `none` when absent).  `json.loads` is the
library boundary. -/
structure WessPost where
  kouenbi : String
  artist : String
  concerttitle : String
  kaijo : String
  kaijojikan : String
  kaienjikan : String
  thumbnail_url : String
  ptitle : Option String
  plink : Option String
  deriving DecidableEq

/-- The title computation of `scrape_wess`'s loop body. -/
def wessTitle (p : WessPost) : String :=
  let artist := collapseWs p.artist
  let concert := collapseWs p.concerttitle
  let title := pyOr concert (pyOr artist (collapseWs (pyOrOpt p.ptitle "公演名不明")))
  if artist ≠ "" ∧ concert ≠ "" ∧ concert ≠ artist then artist ++ " / " ++ concert
  else title

/-- The `EventItem` built for one matching wess post. -/
def wessEvent (date_obj : Date) (label : String) (p : WessPost) : EventItem :=
  let title := wessTitle p
  let flyer := p.thumbnail_url
  { site := label
    title := title
    date_iso := isoDate date_obj
    date_text := jpDateDisplay date_obj
    venue := pyOr (collapseWs p.kaijo) "記載なし"
    open_time := pyOrOpt (normalizeHHMM (some p.kaijojikan)) "記載なし"
    start_time := pyOrOpt (normalizeHHMM (some p.kaienjikan)) "記載なし"
    end_time := "記載なし"
    url := pyOrOpt p.plink "https://wess.jp/"
    flyer_image := flyer
    flyer_alt := title ++ " フライヤー"
    flyer_missing := if flyer = "" then "フライヤーなし（掲載なし）" else "" }

/-- `scrape_wess` from the parsed feed on: keep the posts whose `kouenbi`
equals the target `%Y%m%d` stamp, build one event per post in order. -/
def scrapeWess (date_obj : Date) (label : String) (posts : List WessPost) : SiteResult :=
  let target := strftimeYmd date_obj
  let evs := (posts.filter (fun p => p.kouenbi = target)).map (wessEvent date_obj label)
  { key := "wess", label := label, date_obj := date_obj, events := evs,
    note := if evs = [] then "該当イベントなし" else "" }

/-- One match of the listing regex of `scrape_sapporo_community_plaza`
(`<p class="date">…</p> … <h4 class="txt_b"><a href="…">…</a>`): the raw
`date` group, the `href` group, and the (unused) title group. -/
structure CPMatch where
  date_html : String
  href : String
  title_html : String
  deriving DecidableEq

/-- The loop of `scrape_sapporo_community_plaza` over the listing matches.
`stripTags`/`ensureAbs` are the source's `strip_tags` and
`ensure_abs(url, ·)`, passed as parameters; `fetchDetail` is
`parse_community_plaza_detail` (which fetches the detail page, hence may
raise).  On a failed detail fetch the event is NOT appended: the note is
overwritten with `一部取得失敗: e` and the loop continues. -/
def cpLoop (stripTags ensureAbs : String → String)
    (fetchDetail : String → Except String EventItem) (targetStr : String) :
    List CPMatch → List String → List EventItem → String → List EventItem × String
  | [], _, evs, note => (evs, note)
  | m :: rest, seen, evs, note =>
    let date_text := stripTags m.date_html
    if ¬ containsSub targetStr.data date_text.data then
      cpLoop stripTags ensureAbs fetchDetail targetStr rest seen evs note
    else
      let durl := ensureAbs m.href
      if durl ∈ seen then cpLoop stripTags ensureAbs fetchDetail targetStr rest seen evs note
      else
        match fetchDetail durl with
        | .error e =>
          cpLoop stripTags ensureAbs fetchDetail targetStr rest (seen ++ [durl]) evs
            ("一部取得失敗: " ++ e)
        | .ok ev =>
          cpLoop stripTags ensureAbs fetchDetail targetStr rest (seen ++ [durl])
            (evs ++ [ev]) note

/-- The detail URLs the loop actually processes: date-matched, deduplicated,
in order. -/
def cpTargets (stripTags ensureAbs : String → String) (targetStr : String) :
    List CPMatch → List String → List String
  | [], _ => []
  | m :: rest, seen =>
    let date_text := stripTags m.date_html
    if ¬ containsSub targetStr.data date_text.data then
      cpTargets stripTags ensureAbs targetStr rest seen
    else
      let durl := ensureAbs m.href
      if durl ∈ seen then cpTargets stripTags ensureAbs targetStr rest seen
      else durl :: cpTargets stripTags ensureAbs targetStr rest (seen ++ [durl])

/-- The number of primary listing blocks matched for the target date
(before URL dedup): the events the spec says must all be emitted. -/
def cpPrimaryCount (stripTags : String → String) (targetStr : String)
    (ms : List CPMatch) : Nat :=
  (ms.filter (fun m => containsSub targetStr.data (stripTags m.date_html).data)).length

/-- `scrape_sapporo_community_plaza` from the listing matches on (the page
fetch, the listing regex and the `kind` URL parameter are at the transport
boundary). -/
def scrapeCommunityPlaza (stripTags ensureAbs : String → String)
    (fetchDetail : String → Except String EventItem)
    (date_obj : Date) (label : String) (ms : List CPMatch) : SiteResult :=
  let r := cpLoop stripTags ensureAbs fetchDetail (jpDateCompact date_obj) ms [] [] ""
  { key := "sapporo_community_plaza", label := label, date_obj := date_obj,
    events := r.1,
    note := if r.1 = [] ∧ r.2 = "" then "該当イベントなし" else r.2 }

/-- One `<article class="card">` block of the Kitara month listing, reduced
to the regex groups `scrape_kitara` reads (each `none` when its regex found
nothing in the card). -/
structure KitaraCard where
  date_html : Option String
  title_html : Option String
  href : Option String
  thumb : Option String
  place_html : Option String
  deriving DecidableEq

/-- The per-card enrichment after `parse_kitara_detail` returned: stamp
`date_iso`, then the venue and flyer fallbacks from the card. -/
def kitaraEnrich (stripTags ensureAbs : String → String) (date_obj : Date)
    (card : KitaraCard) (ev0 : EventItem) : EventItem :=
  let ev1 := { ev0 with date_iso := isoDate date_obj }
  let ev2 :=
    if ev1.venue = "記載なし" then
      { ev1 with venue := match card.place_html with
                          | some p => stripTags p
                          | none => ev1.venue }
    else ev1
  if ev2.flyer_image = "" then
    match card.thumb with
    | some t => { ev2 with flyer_image := ensureAbs t,
                           flyer_alt := ev2.title ++ " 画像", flyer_missing := "" }
    | none => ev2
  else ev2

/-- The card loop of `scrape_kitara`.  `fetchDetail` is
`parse_kitara_detail(detail_url, fallback_title)`; the source does NOT
guard this call, so its exception aborts the whole adapter. -/
def kitaraLoop (stripTags ensureAbs : String → String)
    (fetchDetail : String → String → Except String EventItem)
    (date_obj : Date) (targetStr : String) :
    List KitaraCard → List EventItem → Except String (List EventItem)
  | [], evs => .ok evs
  | card :: rest, evs =>
    match card.date_html with
    | none => kitaraLoop stripTags ensureAbs fetchDetail date_obj targetStr rest evs
    | some dh =>
      if ¬ leadsWith targetStr.data (stripTags dh).data then
        kitaraLoop stripTags ensureAbs fetchDetail date_obj targetStr rest evs
      else
        match card.title_html, card.href with
        | some th, some hr =>
          (match fetchDetail (ensureAbs hr) (stripTags th) with
           | .error e => .error e
           | .ok ev0 =>
             kitaraLoop stripTags ensureAbs fetchDetail date_obj targetStr rest
               (evs ++ [kitaraEnrich stripTags ensureAbs date_obj card ev0]))
        | _, _ => kitaraLoop stripTags ensureAbs fetchDetail date_obj targetStr rest evs

/-- `scrape_kitara` from the month-page cards on.  `noneMarker` is whether
the page contains `該当する公演はありません`. -/
def scrapeKitara (stripTags ensureAbs : String → String)
    (fetchDetail : String → String → Except String EventItem)
    (date_obj : Date) (label : String) (noneMarker : Bool)
    (cards : List KitaraCard) : Except String SiteResult :=
  if noneMarker then
    .ok { key := "kitara", label := label, date_obj := date_obj, events := [],
          note := "該当イベントなし" }
  else
    match kitaraLoop stripTags ensureAbs fetchDetail date_obj (jpDateCompact date_obj)
        cards [] with
    | .error e => .error e
    | .ok evs =>
      .ok { key := "kitara", label := label, date_obj := date_obj, events := evs,
            note := if evs = [] then "該当イベントなし" else "" }

/-- The successful-fetch projection used to describe `cpLoop`'s output. -/
def cpOkOf (fetchDetail : String → Except String EventItem) (u : String) :
    Option EventItem :=
  match fetchDetail u with
  | .ok ev => some ev
  | .error _ => none

/-! ### Concrete inputs used by witnesses and counterexamples -/

/-- 2025-05-01 (a Thursday, `weekday() = 3`). -/
def dateW : Date := { year := 2025, month := 5, day := 1, weekday := 3 }

/-- C2: an event whose `start_time` does not match `\d{1,2}:\d{2}` at all. -/
def evC2a : EventItem :=
  { site := "s", title := "a", date_iso := "2025-05-01", date_text := "d",
    venue := "v", start_time := "xx" }

/-- C2: an event whose `start_time` matches the shape but has hour 25. -/
def evC2b : EventItem :=
  { site := "s", title := "b", date_iso := "2025-05-01", date_text := "d",
    venue := "v", start_time := "25:00" }

/-- C2: sentinel-start event, title "a". -/
def evC2s1 : EventItem :=
  { site := "s", title := "a", date_iso := "2025-05-01", date_text := "d",
    venue := "v", start_time := "zz" }

/-- C2: sentinel-start event, title "b". -/
def evC2s2 : EventItem :=
  { site := "s", title := "b", date_iso := "2025-05-01", date_text := "d",
    venue := "v", start_time := "ww" }

/-- C7: two events that agree on the whole sort key `(date_iso, start,
title)` but differ in `venue`. -/
def evC7a : EventItem :=
  { site := "s", title := "t", date_iso := "2025-05-01", date_text := "d",
    venue := "A", start_time := "19:00" }

/-- C7: key-equal twin of `evC7a` with a different venue. -/
def evC7b : EventItem :=
  { site := "s", title := "t", date_iso := "2025-05-01", date_text := "d",
    venue := "B", start_time := "19:00" }

/-- C7 witness: distinct-key event, title "p". -/
def evC7w1 : EventItem :=
  { site := "s", title := "p", date_iso := "2025-05-01", date_text := "d",
    venue := "v", start_time := "19:00" }

/-- C7 witness: distinct-key event, title "q". -/
def evC7w2 : EventItem :=
  { site := "s", title := "q", date_iso := "2025-05-01", date_text := "d",
    venue := "v", start_time := "20:00" }

/-- C5: fully specified times — the spec's positive example. -/
def evC5yes : EventItem :=
  { site := "s", title := "t", date_iso := "2025-05-01", date_text := "d",
    venue := "v", start_time := "19:00", end_time := "21:00", url := "u" }

/-- C5: same event with `end_time` set to the sentinel. -/
def evC5no : EventItem :=
  { site := "s", title := "t", date_iso := "2025-05-01", date_text := "d",
    venue := "v", start_time := "19:00", end_time := "記載なし", url := "u" }

/-- C4: an empty source whose note is the single character Q (a character
that occurs nowhere in the markup the renderer emits for other sources). -/
def siteEmptyQ : SiteResult :=
  { key := "k1", label := "a", date_obj := dateW, events := [], note := "Q" }

/-- C4: the one event of the non-empty source. -/
def evC4 : EventItem :=
  { site := "s", title := "t", date_iso := "2025-05-01", date_text := "d",
    venue := "v" }

/-- C4: a source with one event. -/
def siteOneEv : SiteResult :=
  { key := "k2", label := "b", date_obj := dateW, events := [evC4], note := "" }

/-- C6: a feed post for the target date whose start-time token has hour 25
and minute 99. -/
def wessPostC6 : WessPost :=
  { kouenbi := "20250501", artist := "", concerttitle := "", kaijo := "",
    kaijojikan := "", kaienjikan := "25:99", thumbnail_url := "",
    ptitle := none, plink := none }

/-- C6 witness: a feed post with an unpadded `9:30` start token. -/
def wessPostW6 : WessPost :=
  { kouenbi := "20250501", artist := "", concerttitle := "", kaijo := "",
    kaijojikan := "", kaienjikan := "9:30", thumbnail_url := "",
    ptitle := none, plink := none }

/-- C3: one listing match for the target date. -/
def cpMatchC3 : CPMatch :=
  { date_html := "2025年5月1日", href := "u1", title_html := "t" }

/-- C3: a detail-fetch oracle that always raises. -/
def cpFailFetch : String → Except String EventItem := fun _ => .error "boom"

/-- C3: a Kitara card for the target date with title and detail link. -/
def kitaraCardC3 : KitaraCard :=
  { date_html := some "2025年5月1日", title_html := some "t", href := some "u1",
    thumb := none, place_html := none }

/-- C3: a Kitara detail oracle that always raises. -/
def kitaraFailFetch : String → String → Except String EventItem :=
  fun _ _ => .error "boom"

/-- C1/C9: an adapter environment in which every adapter raises. -/
def envFail : AdapterEnv :=
  { kitara := fun _ _ => .error "boom"
    sapporo_community_plaza := fun _ _ _ => .error "boom"
    sapporo_shiminhall := fun _ _ => .error "boom"
    musicfun := fun _ _ => .error "boom"
    mountalive := fun _ _ => .error "boom"
    wess := fun _ _ => .error "boom"
    kyobun := fun _ _ => .error "boom"
    sapporo_dome := fun _ _ => .error "boom"
    sora_scc := fun _ _ => .error "boom"
    axes := fun _ _ => .error "boom"
    makomanai_icearena := fun _ _ => .error "boom"
    zepp_sapporo := fun _ _ => .error "boom" }

/-- C1: a configured kitara source. -/
def confKitara : SourceConf :=
  { stype := some "kitara", slabel := some "K", kind := none }

/-- C9: a configuration whose type tag is registered nowhere. -/
def confUnknown : SourceConf :=
  { stype := some "unknown_src", slabel := none, kind := none }

/-! ### Order-theoretic facts about the Python string/tuple comparison -/

theorem char_eq_of_toNat_eq {a b : Char} (h : a.toNat = b.toNat) : a = b :=
  Char.eq_of_val_eq (UInt32.ext h)

theorem lexCmp_eq_iff : ∀ {x y : List Char}, lexCmp x y = .eq ↔ x = y
  | [], [] => by simp [lexCmp]
  | [], _ :: _ => by simp [lexCmp]
  | _ :: _, [] => by simp [lexCmp]
  | a :: as, b :: bs => by
    simp only [lexCmp]
    split_ifs with h1 h2
    · constructor
      · intro h; exact absurd h (by simp)
      · intro h; cases h; exact absurd h1 (Nat.lt_irrefl _)
    · constructor
      · intro h; exact absurd h (by simp)
      · intro h; cases h; exact absurd h2 (Nat.lt_irrefl _)
    · have hab : a = b :=
        char_eq_of_toNat_eq (Nat.le_antisymm (Nat.not_lt.mp h2) (Nat.not_lt.mp h1))
      rw [hab, lexCmp_eq_iff]
      simp

theorem lexCmp_swap : ∀ {x y : List Char}, lexCmp y x = (lexCmp x y).swap
  | [], [] => rfl
  | [], _ :: _ => rfl
  | _ :: _, [] => rfl
  | a :: as, b :: bs => by
    simp only [lexCmp]
    rcases Nat.lt_trichotomy a.toNat b.toNat with h | h | h
    · have hba : ¬ b.toNat < a.toNat := by omega
      rw [if_neg hba, if_pos h, if_pos h]
      rfl
    · have hba : ¬ b.toNat < a.toNat := by omega
      have hab : ¬ a.toNat < b.toNat := by omega
      rw [if_neg hba, if_neg hab, if_neg hab, if_neg hba]
      exact lexCmp_swap
    · have hab : ¬ a.toNat < b.toNat := by omega
      rw [if_pos h, if_neg hab, if_pos h]
      rfl

theorem lexCmp_lt_trans : ∀ {x y z : List Char},
    lexCmp x y = .lt → lexCmp y z = .lt → lexCmp x z = .lt
  | [], y, [] => by
    intro hxy hyz
    cases y with
    | nil => exact absurd hxy (by simp [lexCmp])
    | cons c cs => exact absurd hyz (by simp [lexCmp])
  | [], _, _ :: _ => by intro _ _; rfl
  | _ :: _, [], _ => by intro h _; exact absurd h (by simp [lexCmp])
  | a :: as, b :: bs, [] => by intro _ h; exact absurd h (by simp [lexCmp])
  | a :: as, b :: bs, c :: cs => by
    intro hxy hyz
    simp only [lexCmp] at hxy hyz ⊢
    by_cases h1 : a.toNat < b.toNat
    · by_cases h2 : b.toNat < c.toNat
      · rw [if_pos (Nat.lt_trans h1 h2)]
      · rw [if_neg h2] at hyz
        by_cases h3 : c.toNat < b.toNat
        · rw [if_pos h3] at hyz; exact absurd hyz (by simp)
        · have hbc : b.toNat = c.toNat :=
            Nat.le_antisymm (Nat.not_lt.mp h3) (Nat.not_lt.mp h2)
          rw [if_pos (hbc ▸ h1)]
    · rw [if_neg h1] at hxy
      by_cases h2 : b.toNat < a.toNat
      · rw [if_pos h2] at hxy; exact absurd hxy (by simp)
      · rw [if_neg h2] at hxy
        have hab : a.toNat = b.toNat :=
          Nat.le_antisymm (Nat.not_lt.mp h2) (Nat.not_lt.mp h1)
        by_cases h3 : b.toNat < c.toNat
        · rw [if_pos (hab ▸ h3)]
        · rw [if_neg h3] at hyz
          by_cases h4 : c.toNat < b.toNat
          · rw [if_pos h4] at hyz; exact absurd hyz (by simp)
          · rw [if_neg h4] at hyz
            rw [if_neg (hab ▸ h3), if_neg (fun hca => h4 (hab ▸ hca))]
            exact lexCmp_lt_trans hxy hyz

theorem then_eq_eq {o₁ o₂ : Ordering} : o₁.then o₂ = .eq ↔ o₁ = .eq ∧ o₂ = .eq := by
  cases o₁ <;> simp [Ordering.then]

theorem then_lt_cases {o₁ o₂ : Ordering} (h : o₁.then o₂ = .lt) :
    o₁ = .lt ∨ (o₁ = .eq ∧ o₂ = .lt) := by
  cases o₁ <;> simp_all [Ordering.then]

theorem then_lt_of_lt {o₁ o₂ : Ordering} (h : o₁ = .lt) : o₁.then o₂ = .lt := by
  rw [h]; rfl

theorem then_of_eq {o₁ : Ordering} (o₂ : Ordering) (h : o₁ = .eq) : o₁.then o₂ = o₂ := by
  rw [h]; rfl

theorem then_swap {o₁ o₂ : Ordering} : (o₁.then o₂).swap = o₁.swap.then o₂.swap := by
  cases o₁ <;> rfl

theorem obLe_iff {o : Ordering} : obLe o = true ↔ o ≠ .gt := by
  cases o <;> simp [obLe]

theorem cmp3_eq_iff {x y : List Char × List Char × List Char} :
    cmp3 x y = .eq ↔ x = y := by
  obtain ⟨x1, x2, x3⟩ := x
  obtain ⟨y1, y2, y3⟩ := y
  simp [cmp3, lexPair, then_eq_eq, lexCmp_eq_iff]

theorem cmp3_swap {x y : List Char × List Char × List Char} :
    cmp3 y x = (cmp3 x y).swap := by
  simp only [cmp3, lexPair, then_swap]
  rw [lexCmp_swap (x := x.1) (y := y.1), lexCmp_swap (x := x.2.1) (y := y.2.1),
    lexCmp_swap (x := x.2.2) (y := y.2.2)]

theorem cmp3_lt_trans {x y z : List Char × List Char × List Char}
    (hxy : cmp3 x y = .lt) (hyz : cmp3 y z = .lt) : cmp3 x z = .lt := by
  simp only [cmp3, lexPair] at hxy hyz ⊢
  rcases then_lt_cases hxy with h1 | ⟨h1, h1'⟩ <;>
    rcases then_lt_cases hyz with h2 | ⟨h2, h2'⟩
  · exact then_lt_of_lt (lexCmp_lt_trans h1 h2)
  · rw [lexCmp_eq_iff] at h2
    exact then_lt_of_lt (h2 ▸ h1)
  · rw [lexCmp_eq_iff] at h1
    exact then_lt_of_lt (h1 ▸ h2)
  · rw [lexCmp_eq_iff] at h1 h2
    rw [then_of_eq _ (by rw [h1, h2]; exact lexCmp_eq_iff.mpr rfl)]
    rcases then_lt_cases h1' with g1 | ⟨g1, g1'⟩ <;>
      rcases then_lt_cases h2' with g2 | ⟨g2, g2'⟩
    · exact then_lt_of_lt (lexCmp_lt_trans g1 g2)
    · rw [lexCmp_eq_iff] at g2
      exact then_lt_of_lt (g2 ▸ g1)
    · rw [lexCmp_eq_iff] at g1
      exact then_lt_of_lt (g1 ▸ g2)
    · rw [lexCmp_eq_iff] at g1 g2
      rw [then_of_eq _ (by rw [g1, g2]; exact lexCmp_eq_iff.mpr rfl)]
      exact lexCmp_lt_trans g1' g2'

theorem key3Le_refl (x : List Char × List Char × List Char) : key3Le x x = true := by
  unfold key3Le
  rw [cmp3_eq_iff.mpr rfl]
  rfl

theorem key3Le_total (x y : List Char × List Char × List Char) :
    key3Le x y = true ∨ key3Le y x = true := by
  unfold key3Le
  rw [cmp3_swap (x := x) (y := y)]
  cases cmp3 x y <;> simp [obLe, Ordering.swap]

theorem key3Le_antisymm {x y : List Char × List Char × List Char}
    (h1 : key3Le x y = true) (h2 : key3Le y x = true) : x = y := by
  unfold key3Le at h1 h2
  rw [cmp3_swap (x := x) (y := y)] at h2
  cases h : cmp3 x y with
  | lt => rw [h] at h2; exact absurd h2 (by simp [obLe, Ordering.swap])
  | eq => exact cmp3_eq_iff.mp h
  | gt => rw [h] at h1; exact absurd h1 (by simp [obLe])

theorem key3Le_trans {x y z : List Char × List Char × List Char}
    (h1 : key3Le x y = true) (h2 : key3Le y z = true) : key3Le x z = true := by
  unfold key3Le at h1 h2 ⊢
  rw [obLe_iff] at h1 h2 ⊢
  intro hgt
  cases hxy : cmp3 x y with
  | gt => exact h1 hxy
  | eq =>
    rw [cmp3_eq_iff.mp hxy] at hgt
    exact h2 hgt
  | lt =>
    cases hyz : cmp3 y z with
    | gt => exact h2 hyz
    | eq =>
      rw [← cmp3_eq_iff.mp hyz] at hgt
      rw [hxy] at hgt
      exact absurd hgt (by simp)
    | lt =>
      rw [cmp3_lt_trans hxy hyz] at hgt
      exact absurd hgt (by simp)

/-! ### Facts about `sort_events` -/

theorem sortEvents_sorted (l : List EventItem) : List.Sorted keyLe (sortEvents l) := by
  haveI : IsTotal EventItem keyLe := ⟨fun a b => key3Le_total (evKey a) (evKey b)⟩
  haveI : IsTrans EventItem keyLe := ⟨fun _ _ _ h h' => key3Le_trans h h'⟩
  exact List.sorted_insertionSort keyLe l

theorem sortEvents_perm (l : List EventItem) : List.Perm (sortEvents l) l :=
  List.perm_insertionSort keyLe l

/-- Two sorted lists that are permutations of each other and whose members
are determined by their sort keys are equal. -/
theorem sorted_perm_eq : ∀ {l₁ l₂ : List EventItem},
    List.Sorted keyLe l₁ → List.Sorted keyLe l₂ → List.Perm l₁ l₂ →
    (∀ a ∈ l₁, ∀ b ∈ l₁, evKey a = evKey b → a = b) → l₁ = l₂ := by
  intro l₁
  induction l₁ with
  | nil =>
    intro l₂ _ _ hp _
    exact (hp.symm.eq_nil).symm
  | cons a t ih =>
    intro l₂ hs₁ hs₂ hp hinj
    cases l₂ with
    | nil => exact absurd hp.eq_nil (by simp)
    | cons b t₂ =>
      have hsa := List.sorted_cons.mp hs₁
      have hsb := List.sorted_cons.mp hs₂
      have hmem_b : b ∈ a :: t := hp.symm.subset (List.mem_cons_self b t₂)
      have hmem_a : a ∈ b :: t₂ := hp.subset (List.mem_cons_self a t)
      have hab : keyLe a b := by
        rcases List.mem_cons.mp hmem_b with h | h
        · rw [h]; exact key3Le_refl (evKey a)
        · exact hsa.1 b h
      have hba : keyLe b a := by
        rcases List.mem_cons.mp hmem_a with h | h
        · rw [h]; exact key3Le_refl (evKey b)
        · exact hsb.1 a h
      have hae : a = b :=
        hinj a (List.mem_cons_self a t) b hmem_b (key3Le_antisymm hab hba)
      subst hae
      have hpt : List.Perm t t₂ := hp.cons_inv
      have ht : t = t₂ :=
        ih hsa.2 hsb.2 hpt
          (fun x hx y hy h => hinj x (List.mem_cons_of_mem _ hx) y (List.mem_cons_of_mem _ hy) h)
      rw [ht]

/-! ### Facts about `normalize_hhmm` -/

theorem matchAt_digits : ∀ {cs : List Char} {r : Char × Option Char × Char × Char},
    matchAt cs = some r →
    r.1.isDigit = true ∧ (∀ x, r.2.1 = some x → x.isDigit = true) ∧
    r.2.2.1.isDigit = true ∧ r.2.2.2.isDigit = true := by
  intro cs r h
  match cs with
  | [] => exact absurd h (by simp [matchAt])
  | [c0] => exact absurd h (by simp [matchAt])
  | c0 :: c1 :: rest =>
    simp only [matchAt] at h
    split_ifs at h with hd0 hd1 hc1
    · match rest with
      | [] => exact absurd h (by simp)
      | [c2] => exact absurd h (by simp)
      | [c2, c3] => exact absurd h (by simp)
      | c2 :: c3 :: c4 :: tail =>
        simp only [] at h
        split_ifs at h with hcond
        cases h
        have hc := (Bool.and_eq_true _ _).mp hcond
        have hc2 := (Bool.and_eq_true _ _).mp hc.1
        refine ⟨hd0, ?_, hc2.2, hc.2⟩
        intro x hx
        cases hx
        exact hd1
    · match rest with
      | [] => exact absurd h (by simp)
      | c2 :: tail =>
        match tail with
        | [] => exact absurd h (by simp)
        | c3 :: tail2 =>
          simp only [] at h
          split_ifs at h with hcond
          cases h
          have hc := (Bool.and_eq_true _ _).mp hcond
          refine ⟨hd0, ?_, hc.1, hc.2⟩
          intro x hx
          exact Option.noConfusion hx

theorem searchHHMM_digits : ∀ {cs : List Char} {r : Char × Option Char × Char × Char},
    searchHHMM cs = some r →
    r.1.isDigit = true ∧ (∀ x, r.2.1 = some x → x.isDigit = true) ∧
    r.2.2.1.isDigit = true ∧ r.2.2.2.isDigit = true
  | [], r => by intro h; exact absurd h (by simp [searchHHMM])
  | c :: rest, r => by
    intro h
    simp only [searchHHMM] at h
    cases hm : matchAt (c :: rest) with
    | some r' =>
      rw [hm] at h
      cases h
      exact matchAt_digits hm
    | none =>
      rw [hm] at h
      exact searchHHMM_digits h

theorem hhmmOf_padded {r : Char × Option Char × Char × Char}
    (h1 : r.1.isDigit = true) (h2 : ∀ x, r.2.1 = some x → x.isDigit = true)
    (h3 : r.2.2.1.isDigit = true) (h4 : r.2.2.2.isDigit = true) :
    isPadded (hhmmOf r) = true := by
  obtain ⟨a, ob, m1, m2⟩ := r
  cases ob with
  | none => simp_all [hhmmOf, isPadded]
  | some b =>
    have hb := h2 b rfl
    simp_all [hhmmOf, isPadded]

theorem normalizeHHMM_padded {v : Option String} {t : String}
    (h : normalizeHHMM v = some t) : isPadded t = true := by
  cases v with
  | none => exact absurd h (by simp [normalizeHHMM])
  | some s =>
    simp only [normalizeHHMM] at h
    split_ifs at h with he
    cases hs : searchHHMM s.data with
    | none =>
      rw [hs] at h
      exact absurd h (by simp)
    | some r =>
      rw [hs] at h
      have ht := Option.some.inj h
      cases ht
      obtain ⟨g1, g2, g3, g4⟩ := searchHHMM_digits hs
      exact hhmmOf_padded g1 g2 g3 g4

theorem isPadded_ne_empty {t : String} (h : isPadded t = true) : t ≠ "" := by
  intro he
  rw [he] at h
  exact absurd h (by decide)

/-! ### Small string facts -/

theorem data_append_eq (s t : String) : (s ++ t).data = s.data ++ t.data := by
  cases s
  cases t
  rfl

theorem append_ne_empty {s : String} (t : String) (h : s.data ≠ []) : s ++ t ≠ "" := by
  intro he
  apply h
  have hd : (s ++ t).data = ([] : List Char) := by rw [he]
  rw [data_append_eq] at hd
  exact (List.append_eq_nil.mp hd).1

/-! ### Facts about the community-plaza loop -/

theorem cpLoop_events (stripTags ensureAbs : String → String)
    (fetchDetail : String → Except String EventItem) (targetStr : String) :
    ∀ (ms : List CPMatch) (seen : List String) (evs : List EventItem) (note : String),
      (cpLoop stripTags ensureAbs fetchDetail targetStr ms seen evs note).1
        = evs ++ (cpTargets stripTags ensureAbs targetStr ms seen).filterMap (cpOkOf fetchDetail)
  | [], seen, evs, note => by simp [cpLoop, cpTargets]
  | m :: rest, seen, evs, note => by
    simp only [cpLoop, cpTargets]
    split_ifs with hd hseen
    all_goals try exact cpLoop_events stripTags ensureAbs fetchDetail targetStr rest seen evs note
    cases hf : fetchDetail (ensureAbs m.href) with
    | error e =>
      rw [cpLoop_events stripTags ensureAbs fetchDetail targetStr rest
        (seen ++ [ensureAbs m.href]) evs ("一部取得失敗: " ++ e)]
      simp [cpOkOf, hf]
    | ok ev =>
      rw [cpLoop_events stripTags ensureAbs fetchDetail targetStr rest
        (seen ++ [ensureAbs m.href]) (evs ++ [ev]) note]
      simp [cpOkOf, hf]

theorem cpLoop_note (stripTags ensureAbs : String → String)
    (fetchDetail : String → Except String EventItem) (targetStr : String) :
    ∀ (ms : List CPMatch) (seen : List String) (evs : List EventItem) (note : String),
      ((∀ u ∈ cpTargets stripTags ensureAbs targetStr ms seen, ∀ e, fetchDetail u ≠ .error e) →
        (cpLoop stripTags ensureAbs fetchDetail targetStr ms seen evs note).2 = note) ∧
      ((∃ u ∈ cpTargets stripTags ensureAbs targetStr ms seen, ∃ e, fetchDetail u = .error e) →
        (cpLoop stripTags ensureAbs fetchDetail targetStr ms seen evs note).2 ≠ "")
  | [], seen, evs, note => by
    constructor
    · intro _; simp [cpLoop]
    · intro h; simp [cpTargets] at h
  | m :: rest, seen, evs, note => by
    simp only [cpLoop, cpTargets]
    split_ifs with hd hseen
    all_goals try exact cpLoop_note stripTags ensureAbs fetchDetail targetStr rest seen evs note
    constructor
    · intro hok
      cases hf : fetchDetail (ensureAbs m.href) with
      | error e => exact absurd hf (hok (ensureAbs m.href) (List.mem_cons_self _ _) e)
      | ok ev =>
        exact (cpLoop_note stripTags ensureAbs fetchDetail targetStr rest
          (seen ++ [ensureAbs m.href]) (evs ++ [ev]) note).1
          (fun u hu e' => hok u (List.mem_cons_of_mem _ hu) e')
    · intro hex
      cases hf : fetchDetail (ensureAbs m.href) with
      | error e =>
        by_cases hex2 : ∃ u ∈ cpTargets stripTags ensureAbs targetStr rest
            (seen ++ [ensureAbs m.href]), ∃ e', fetchDetail u = .error e'
        · exact (cpLoop_note stripTags ensureAbs fetchDetail targetStr rest
            (seen ++ [ensureAbs m.href]) evs ("一部取得失敗: " ++ e)).2 hex2
        · push_neg at hex2
          rw [(cpLoop_note stripTags ensureAbs fetchDetail targetStr rest
            (seen ++ [ensureAbs m.href]) evs ("一部取得失敗: " ++ e)).1 hex2]
          exact append_ne_empty e (by decide)
      | ok ev =>
        rcases hex with ⟨u, hu, e', hfe⟩
        rcases List.mem_cons.mp hu with h | h
        · rw [h] at hfe
          rw [hfe] at hf
          exact absurd hf (by simp)
        · exact (cpLoop_note stripTags ensureAbs fetchDetail targetStr rest
            (seen ++ [ensureAbs m.href]) (evs ++ [ev]) note).2 ⟨u, h, e', hfe⟩

/-! ### Claim theorems -/

/-- Claim C8: normalizing a clock-time token yields a strict zero-padded
`HH:MM` string or no match, and the malformed input `"9:5"` (single-digit
minute) yields no match rather than a guessed zero-padded value. -/
theorem normalize_hhmm_strict :
    (∀ v t, normalizeHHMM v = some t → isPadded t = true) ∧
    normalizeHHMM (some "9:5") = none :=
  ⟨fun _ _ h => normalizeHHMM_padded h, by decide⟩

/-- Witness for C8 at a concrete input: `"x 9:30"` normalizes to the padded
token `"09:30"`. -/
theorem normalize_hhmm_strict_witness :
    isPadded "09:30" = true ∧ normalizeHHMM (some "9:5") = none :=
  ⟨normalize_hhmm_strict.1 (some "x 9:30") "09:30" (by decide),
   normalize_hhmm_strict.2⟩

/-- Claim C10: `sort_events` is non-mutating — the call `sorted(events,
key=key)` leaves the argument list unchanged and returns a new list, a
permutation of the input, so a `SiteResult`'s events list is unmodified by
rendering. -/
theorem sort_events_non_mutating (events : List EventItem) :
    (sortEventsCall events).1 = events ∧
    (sortEventsCall events).2 = sortEvents events ∧
    List.Perm (sortEventsCall events).2 events :=
  ⟨rfl, rfl, sortEvents_perm events⟩

/-- Claim C6 (amended): an `EventItem` produced by `scrape_wess` carries a
`start_time` that is either the sentinel `記載なし` or a zero-padded
`\d{2}:\d{2}` token — but the hour/minute VALUE ranges are not validated
(`normalize_hhmm` checks only the digit shape), so tokens such as `25:99`
can be emitted; the claim's 00–23 / 00–59 range bound does not hold. -/
theorem wess_start_time_shape (date_obj : Date) (label : String)
    (posts : List WessPost) :
    ∀ e ∈ (scrapeWess date_obj label posts).events,
      e.start_time = "記載なし" ∨ isPadded e.start_time = true := by
  intro e he
  simp only [scrapeWess, List.mem_map, List.mem_filter] at he
  obtain ⟨p, _, rfl⟩ := he
  simp only [wessEvent]
  cases hn : normalizeHHMM (some p.kaienjikan) with
  | none => left; simp [pyOrOpt, hn]
  | some t =>
    right
    have hp := normalizeHHMM_padded hn
    simp only [pyOrOpt, hn]
    rw [if_neg (isPadded_ne_empty hp)]
    exact hp

/-- Witness for C6 at a concrete input: the post with start token `9:30`
yields the padded `09:30`. -/
theorem wess_start_time_shape_witness :
    (wessEvent dateW "W" wessPostW6).start_time = "記載なし" ∨
    isPadded (wessEvent dateW "W" wessPostW6).start_time = true :=
  wess_start_time_shape dateW "W" [wessPostW6] (wessEvent dateW "W" wessPostW6)
    (by decide)

/-- Counterexample for C6 as stated: `scrape_wess` emits `start_time =
"25:99"`, which is neither the sentinel nor an `HH:MM` token with hour ≤ 23
and minute ≤ 59. -/
theorem wess_start_time_invalid_range :
    (scrapeWess dateW "W" [wessPostC6]).events.map EventItem.start_time = ["25:99"] ∧
    specWellFormedTime "25:99" = false ∧
    ("25:99" : String) ≠ "記載なし" := by decide

/-- Claim C2 (amended): `sort_events` returns a permutation of its input
sorted ascending by the key `(date_iso, effective_start_time, title)` under
Python string/tuple comparison, where `effective_start_time` is the literal
`start_time` token when it full-matches `\d{1,2}:\d{2}` — with NO validation
of the hour (≤ 23) or minute (≤ 59) values, and a one-digit hour kept
unpadded — and the sentinel `99:99` otherwise; two events sharing `date_iso`
whose start times both fail that pattern compare by title, lexicographically. -/
theorem sort_events_ordering :
    (∀ l : List EventItem, List.Sorted keyLe (sortEvents l)) ∧
    (∀ l : List EventItem, List.Perm (sortEvents l) l) ∧
    (∀ a b : EventItem, isTimeTok a.start_time = false →
      isTimeTok b.start_time = false → a.date_iso = b.date_iso →
      (keyLe a b ↔ lexLe a.title.data b.title.data = true)) := by
  refine ⟨sortEvents_sorted, sortEvents_perm, ?_⟩
  intro a b ha hb hd
  have h1 : effStart a = "99:99" := by simp [effStart, ha]
  have h2 : effStart b = "99:99" := by simp [effStart, hb]
  unfold keyLe key3Le cmp3 lexPair evKey
  rw [h1, h2, hd]
  rw [then_of_eq _ (lexCmp_eq_iff.mpr rfl), then_of_eq _ (lexCmp_eq_iff.mpr rfl)]
  exact Iff.rfl

/-- Witness for C2 at concrete inputs: a two-event list is sorted and
permuted, and two sentinel-start events with equal dates compare by title. -/
theorem sort_events_ordering_witness :
    List.Sorted keyLe (sortEvents [evC2s1, evC2s2]) ∧
    (keyLe evC2s1 evC2s2 ↔ lexLe evC2s1.title.data evC2s2.title.data = true) :=
  ⟨sort_events_ordering.1 [evC2s1, evC2s2],
   sort_events_ordering.2.2 evC2s1 evC2s2 (by decide) (by decide) (by decide)⟩

/-- Counterexample for C2 as stated: the spec's key maps the out-of-range
token `25:00` to the sentinel and would order by title (`a` before `b`), but
the code keeps `25:00` literally, producing the opposite order. -/
theorem sort_events_spec_key_counterexample :
    sortEvents [evC2a, evC2b] = [evC2b, evC2a] ∧
    specSortEvents [evC2a, evC2b] = [evC2a, evC2b] ∧
    sortEvents [evC2a, evC2b] ≠ specSortEvents [evC2a, evC2b] := by decide

/-- Claim C7 (amended): sorting is idempotent, and it is order-independent
on every list whose events are determined by their sort keys; but when two
DISTINCT events share the full key `(date_iso, effective_start, title)`,
Python's stable sort preserves their input order, so different permutations
can sort to different sequences. -/
theorem sort_events_idem_order_indep :
    (∀ l : List EventItem, sortEvents (sortEvents l) = sortEvents l) ∧
    (∀ l l' : List EventItem, List.Perm l l' →
      (∀ a ∈ l, ∀ b ∈ l, evKey a = evKey b → a = b) →
      sortEvents l = sortEvents l') := by
  constructor
  · intro l
    exact List.Sorted.insertionSort_eq (sortEvents_sorted l)
  · intro l l' hp hinj
    refine sorted_perm_eq (sortEvents_sorted l) (sortEvents_sorted l') ?_ ?_
    · exact (sortEvents_perm l).trans (hp.trans (sortEvents_perm l').symm)
    · intro a ha b hb hk
      exact hinj a ((sortEvents_perm l).subset ha) b ((sortEvents_perm l).subset hb) hk

/-- Witness for C7 at concrete inputs: two key-distinct events sort to the
same sequence from either input order, and sorting is idempotent there. -/
theorem sort_events_idem_order_indep_witness :
    sortEvents (sortEvents [evC7w1, evC7w2]) = sortEvents [evC7w1, evC7w2] ∧
    sortEvents [evC7w1, evC7w2] = sortEvents [evC7w2, evC7w1] :=
  ⟨sort_events_idem_order_indep.1 [evC7w1, evC7w2],
   sort_events_idem_order_indep.2 [evC7w1, evC7w2] [evC7w2, evC7w1]
     (by decide) (by decide)⟩

/-- Counterexample for C7 as stated: `evC7a` and `evC7b` share the whole
sort key but differ in venue; the two orders of the same two-element set
sort to different output sequences (stable sort keeps input order of ties). -/
theorem sort_events_order_dependent_counterexample :
    List.Perm [evC7a, evC7b] [evC7b, evC7a] ∧
    sortEvents [evC7a, evC7b] ≠ sortEvents [evC7b, evC7a] := by decide

set_option maxRecDepth 4096 in
/-- Claim C5: the rendered card contains the calendar-add affordance iff
`date_iso`, `start_time` and `end_time` all full-match their token regexes;
concretely, the `19:00`/`21:00`/`2025-05-01` event renders it and the same
event with the sentinel `end_time` renders none. -/
theorem gcal_affordance_iff :
    (∀ e : EventItem, renderGcalButton e ≠ "" ↔
      (isDateTok e.date_iso = true ∧ isTimeTok e.start_time = true ∧
        isTimeTok e.end_time = true)) ∧
    containsSub "gcal-btn".data (renderEventCard evC5yes).data = true ∧
    containsSub "gcal-btn".data (renderEventCard evC5no).data = false := by
  refine ⟨?_, by decide, by decide⟩
  intro e
  have hbool : renderGcalButton e ≠ "" ↔
      (isDateTok e.date_iso && isTimeTok e.start_time && isTimeTok e.end_time) = true := by
    cases hc : (isDateTok e.date_iso && isTimeTok e.start_time && isTimeTok e.end_time) with
    | false =>
      unfold renderGcalButton
      rw [hc]
      simp
    | true =>
      unfold renderGcalButton
      rw [hc]
      simp only [Bool.not_true, Bool.false_eq_true, if_false, iff_true]
      intro hbig
      have hlen := congrArg String.length hbig
      simp only [String.length_append] at hlen
      have h0 : (0:Nat) < ("<a class=\"btn gcal gcal-btn\" href=\"#\" " : String).length := by
        decide
      have h00 : ("" : String).length = 0 := rfl
      omega
  rw [hbool, Bool.and_eq_true, Bool.and_eq_true, and_assoc]

/-- Witness for C5 at a concrete input: the fully specified event's button
markup is non-empty. -/
theorem gcal_affordance_iff_witness : renderGcalButton evC5yes ≠ "" :=
  (gcal_affordance_iff.1 evC5yes).mpr (by decide)

/-- Claim C9: for a source configuration whose type tag is not one of the
registered adapter tags, `run_scraper` does not raise: it returns a
`SiteResult` with the given key and label, no events, and the non-empty note
`未対応ソース`. -/
theorem run_scraper_unknown_tag (env : AdapterEnv) (conf : SourceConf)
    (date_obj : Date) (h : ∀ t, conf.stype = some t → t ∉ registeredTags) :
    runScraperE env conf date_obj =
      .ok { key := pyStrOpt conf.stype,
            label := pyOrOpt conf.slabel (pyOrOpt conf.stype "source"),
            date_obj := date_obj, events := [], note := "未対応ソース" } ∧
    ("未対応ソース" : String) ≠ "" := by
  refine ⟨?_, by decide⟩
  cases hc : conf.stype with
  | none => simp [runScraperE, hc]
  | some t =>
    have ht := h t hc
    simp only [registeredTags, List.mem_cons, List.not_mem_nil, or_false, not_or] at ht
    obtain ⟨h1, h2, h3, h4, h5, h6, h7, h8, h9, h10, h11, h12⟩ := ht
    simp [runScraperE, hc, h1, h2, h3, h4, h5, h6, h7, h8, h9, h10, h11, h12]

/-- Witness for C9 at a concrete unregistered tag. -/
theorem run_scraper_unknown_tag_witness :
    runScraperE envFail confUnknown dateW =
      .ok { key := "unknown_src", label := "unknown_src", date_obj := dateW,
            events := [], note := "未対応ソース" } ∧
    ("未対応ソース" : String) ≠ "" :=
  run_scraper_unknown_tag envFail confUnknown dateW
    (by intro t ht; cases ht; decide)

/-- Claim C1: the aggregation loop of `main` yields exactly one `SiteResult`
per configured source; an adapter success passes through, and any adapter
exception is converted at the boundary into a `SiteResult` with empty events
and a non-empty failure note, never propagated. -/
theorem main_one_result_per_source (env : AdapterEnv) (date_obj : Date)
    (sources : List SourceConf) :
    (mainResults env date_obj sources).length = sources.length ∧
    (∀ i (h : i < sources.length) r,
      runScraperE env sources[i] date_obj = .ok r →
      (mainResults env date_obj sources)[i]? = some r) ∧
    (∀ i (h : i < sources.length) e,
      runScraperE env sources[i] date_obj = .error e →
      (mainResults env date_obj sources)[i]? = some (mainFailResult sources[i] date_obj e) ∧
      (mainFailResult sources[i] date_obj e).events = [] ∧
      (mainFailResult sources[i] date_obj e).note ≠ "") := by
  refine ⟨by simp [mainResults], ?_, ?_⟩
  · intro i h r hok
    simp only [mainResults]
    rw [List.getElem?_map, List.getElem?_eq_getElem h]
    simp [hok]
  · intro i h e herr
    refine ⟨?_, rfl, append_ne_empty e (by decide)⟩
    simp only [mainResults]
    rw [List.getElem?_map, List.getElem?_eq_getElem h]
    simp [herr]

/-- Witness for C1 at a concrete run in which the single adapter raises. -/
theorem main_one_result_per_source_witness :
    (mainResults envFail dateW [confKitara]).length = 1 ∧
    (mainResults envFail dateW [confKitara])[0]? =
      some (mainFailResult confKitara dateW "boom") ∧
    (mainFailResult confKitara dateW "boom").events = [] ∧
    (mainFailResult confKitara dateW "boom").note ≠ "" := by
  have h := main_one_result_per_source envFail dateW [confKitara]
  have h3 := h.2.2 0 (by decide) "boom" rfl
  exact ⟨h.1, h3.1, h3.2.1, h3.2.2⟩

/-- Claim C3 (amended): in `scrape_sapporo_community_plaza` a failed
secondary (detail-page) fetch causes that event to be SKIPPED — it is not
emitted from its primary listing fields — while the note records the
partial failure and the remaining matched events are still processed (the
returned events are exactly the successfully fetched ones, in order, so the
count can drop below the number of primary listing blocks matched); and in
`scrape_kitara` a secondary-fetch failure is not caught at all: it
propagates out of the adapter. -/
theorem secondary_fetch_failure_behavior :
    (∀ (stripTags ensureAbs : String → String)
       (fetchDetail : String → Except String EventItem) (date_obj : Date)
       (label : String) (ms : List CPMatch),
      (scrapeCommunityPlaza stripTags ensureAbs fetchDetail date_obj label ms).events
        = (cpTargets stripTags ensureAbs (jpDateCompact date_obj) ms []).filterMap
            (cpOkOf fetchDetail)) ∧
    (∀ (stripTags ensureAbs : String → String)
       (fetchDetail : String → Except String EventItem) (date_obj : Date)
       (label : String) (ms : List CPMatch),
      (∃ u ∈ cpTargets stripTags ensureAbs (jpDateCompact date_obj) ms [],
        ∃ e, fetchDetail u = .error e) →
      (scrapeCommunityPlaza stripTags ensureAbs fetchDetail date_obj label ms).note ≠ "") ∧
    (∀ (stripTags ensureAbs : String → String)
       (fetchDetail : String → String → Except String EventItem) (date_obj : Date)
       (label : String) (card : KitaraCard) (rest : List KitaraCard)
       (dh th hr e : String),
      card.date_html = some dh →
      leadsWith (jpDateCompact date_obj).data (stripTags dh).data = true →
      card.title_html = some th → card.href = some hr →
      fetchDetail (ensureAbs hr) (stripTags th) = .error e →
      scrapeKitara stripTags ensureAbs fetchDetail date_obj label false (card :: rest)
        = .error e) := by
  refine ⟨?_, ?_, ?_⟩
  · intro stripTags ensureAbs fetchDetail date_obj label ms
    exact cpLoop_events stripTags ensureAbs fetchDetail (jpDateCompact date_obj) ms [] [] ""
  · intro stripTags ensureAbs fetchDetail date_obj label ms hex
    have hne := (cpLoop_note stripTags ensureAbs fetchDetail (jpDateCompact date_obj)
      ms [] [] "").2 hex
    simp only [scrapeCommunityPlaza]
    rw [if_neg]
    · exact hne
    · intro hcon
      exact hne hcon.2
  · intro stripTags ensureAbs fetchDetail date_obj label card rest dh th hr e
      hdh hlead hth hhr hfe
    simp only [scrapeKitara, Bool.false_eq_true, if_false, kitaraLoop, hdh, hth, hhr,
      hlead, hfe]
    simp

/-- Witness for C3 at concrete inputs: one matched block whose detail fetch
fails — the event set is the (empty) set of successes, the note is set, and
the kitara variant aborts with the exception. -/
theorem secondary_fetch_failure_behavior_witness :
    (scrapeCommunityPlaza id id cpFailFetch dateW "CP" [cpMatchC3]).events
      = (cpTargets id id (jpDateCompact dateW) [cpMatchC3] []).filterMap
          (cpOkOf cpFailFetch) ∧
    (scrapeCommunityPlaza id id cpFailFetch dateW "CP" [cpMatchC3]).note ≠ "" ∧
    scrapeKitara id id kitaraFailFetch dateW "K" false [kitaraCardC3]
      = .error "boom" :=
  ⟨secondary_fetch_failure_behavior.1 id id cpFailFetch dateW "CP" [cpMatchC3],
   secondary_fetch_failure_behavior.2.1 id id cpFailFetch dateW "CP" [cpMatchC3]
     ⟨"u1", by decide, "boom", rfl⟩,
   secondary_fetch_failure_behavior.2.2 id id kitaraFailFetch dateW "K" kitaraCardC3 []
     "2025年5月1日" "t" "u1" "boom" rfl (by decide) rfl rfl rfl⟩

/-- Counterexample for C3 as stated: with one primary block matched for the
target date and its detail fetch failing, the adapter returns zero events —
the failed event is not emitted from its primary fields, and the returned
count falls below the number of matched primary blocks. -/
theorem secondary_fetch_failure_counterexample :
    (scrapeCommunityPlaza id id cpFailFetch dateW "CP" [cpMatchC3]).events.length = 0 ∧
    cpPrimaryCount id (jpDateCompact dateW) [cpMatchC3] = 1 ∧
    (scrapeCommunityPlaza id id cpFailFetch dateW "CP" [cpMatchC3]).note
      = "一部取得失敗: boom" := by decide

/-- Claim C4 (amended): the digest `render_from_template` produces contains
only the single cross-source block, and a `SiteResult` with zero events
contributes nothing to it — adding or removing an empty source leaves the
rendered fragment unchanged (its note text is never shown; only when every
source is empty does a single generic `該当イベントなし` placeholder card
appear, labelled `全サイト横断`).  Per-source placeholder cards with the
source's note exist in `render_site_block`, but `render_from_template` does
not invoke it. -/
theorem digest_empty_site_invisible (date_obj : Date) (s : SiteResult)
    (sites : List SiteResult) (hs : s.events = []) :
    digestFragment date_obj (s :: sites) = digestFragment date_obj sites := by
  unfold digestFragment renderGlobalBlock
  have h1 : List.insertionSort siteLe (s :: sites)
      = List.orderedInsert siteLe s (List.insertionSort siteLe sites) := rfl
  rw [h1, List.orderedInsert_eq_take_drop]
  congr 1
  unfold globalEvents
  rw [List.map_append, List.flatten_append, List.map_cons, List.flatten_cons, hs,
    List.nil_append, ← List.flatten_append, ← List.map_append,
    List.takeWhile_append_dropWhile]

/-- Witness for C4 at concrete inputs: dropping the empty source leaves the
digest unchanged. -/
theorem digest_empty_site_invisible_witness :
    digestFragment dateW [siteEmptyQ, siteOneEv] = digestFragment dateW [siteOneEv] :=
  digest_empty_site_invisible dateW siteEmptyQ [siteOneEv] rfl

set_option maxRecDepth 8192 in
/-- Counterexample for C4 as stated: the empty source's note is the
character `Q`; the rendered digest for [empty source, one-event source]
contains no `Q` at all, so the claimed per-source placeholder card showing
the note text is absent. -/
theorem digest_hides_empty_source_note :
    siteEmptyQ.events = [] ∧ siteEmptyQ.note = "Q" ∧
    (digestFragment dateW [siteEmptyQ, siteOneEv]).data.count 'Q' = 0 := by decide
